import Mathlib

/-!
Shallow embedding of `cinder/volume/flows/common.py`.

The module provides a taskflow `DynamicLogListener` (flow/task transition
events rendered into leveled log records), a `make_pretty_name` helper,
and two best-effort status-recovery helpers (`restore_source_status`,
`error_out_volume`).

Modelling choices:
* Python text is modelled as `List Char`; truncation/length match Python
  code-point semantics.
* A log emission is modelled as a structured record carrying the severity
  and the values interpolated into the message (a field is `none` when the
  corresponding value does not appear in the message text).
* The database collaborator is a function returning `Except PyExc Unit`;
  each helper returns the trace of `volume_update` calls it performed, the
  trace of log records it emitted, and its own outcome (`Except.error`
  meaning an exception propagates to the caller).
* The engine-defined finish-state subset (`base_listener.FINISH_STATES`,
  a collaborator constant from the taskflow library) is a parameter of the
  task receiver.
-/

namespace CinderFlowsCommon

/-- Taskflow state tags relevant to this module. -/
inductive StateTag
  | PENDING
  | RUNNING
  | SUCCESS
  | FAILURE
  | REVERTING
  | REVERTED
  | RETRYING
  deriving DecidableEq, Repr

/-- Python logging severities used in this module (`base_logging.DEBUG`,
`base_logging.WARNING`, and the ERROR level implied by `LOG.exception`). -/
inductive Level
  | DEBUG
  | WARNING
  | ERROR
  deriving DecidableEq, Repr

/-- The textual name of a state, as interpolated into `%(state)s`. -/
def state_name : StateTag → String
  | .PENDING => "PENDING"
  | .RUNNING => "RUNNING"
  | .SUCCESS => "SUCCESS"
  | .FAILURE => "FAILURE"
  | .REVERTING => "REVERTING"
  | .REVERTED => "REVERTED"
  | .RETRYING => "RETRYING"

/-- Rendering of `details.get('old_state')` in the flow message: an absent
old state is the Python value `None`, which `%`-formats as the marker
string `"None"`. -/
def old_state_text : Option StateTag → String
  | none => "None"
  | some s => state_name s

/-- `REASON_LENGTH = 128`: save up to this number of characters of a
failure reason. -/
def REASON_LENGTH : Nat := 128

/-- Embedding of `error_out_volume._clean_reason`.  `none` models the
Python `reason is None` case; otherwise the reason is already text
(`six.text_type` conversion) modelled as a list of characters. -/
def clean_reason : Option (List Char) → List Char
  | none => "???".toList
  | some reason =>
      if reason.length ≤ REASON_LENGTH then reason
      else reason.take REASON_LENGTH ++ "...".toList

/-- A Python callable as observed by `make_pretty_name`: its `__name__`,
and its `__self__` attribute when present and not `None`.  The owner's
`__class__.__name__` lookup can fail with `AttributeError`, modelled by
`className = none`. -/
structure PyCallable where
  name : String
  self : Option (Option String)
  deriving DecidableEq, Repr

/-- Embedding of `make_pretty_name`: start from `[method.__name__]`,
prepend `method.__self__.__class__.__name__` when the callable is bound
and the lookup succeeds (an `AttributeError` is caught and ignored), then
join with `"."`. -/
def make_pretty_name (method : PyCallable) : String :=
  let meth_pieces := [method.name]
  let meth_pieces :=
    match method.self with
    | none => meth_pieces
    | some owner =>
        match owner with
        | some className => className :: meth_pieces
        | none => meth_pieces
  String.intercalate "." meth_pieces

/-- The result attached to a finished task: either a plain produced value
(its `%`-serialized text) or a `misc.Failure` carrying exception/traceback
information (`result.exc_info`, an opaque payload here). -/
inductive TFResult
  | PlainValue (value : String)
  | FailureTrace (exc_info : List String)
  deriving DecidableEq, Repr

/-- The `details` mapping delivered on the task notification channel. -/
structure TaskDetails where
  task_name : String
  task_uuid : String
  result : Option TFResult
  deriving DecidableEq, Repr

/-- The `details` mapping delivered on the flow notification channel
(`old_state` is optional). -/
structure FlowDetails where
  flow_name : String
  flow_uuid : String
  old_state : Option StateTag
  deriving DecidableEq, Repr

/-- One log emission from `_task_receiver`: severity, the values
interpolated into the message, and the optional structured `exc_info`
argument.  `result_in_message = none` means the message text carries only
the task name/uuid/state. -/
structure TaskLogRecord where
  level : Level
  task_name : String
  task_uuid : String
  state : StateTag
  result_in_message : Option String
  exc_info : Option (List String)
  deriving DecidableEq, Repr

/-- One log emission from `_flow_receiver`.  `old_state` holds the text
interpolated for `%(old_state)s`. -/
structure FlowLogRecord where
  level : Level
  flow_name : String
  flow_uuid : String
  state : StateTag
  old_state : String
  deriving DecidableEq, Repr

/-- Embedding of `DynamicLogListener._flow_receiver`: one log call per
event, WARNING when the new state is FAILURE or REVERTED, DEBUG otherwise;
the message interpolates flow_name, flow_uuid, the new state and
`details.get('old_state')`. -/
def flow_receiver (state : StateTag) (details : FlowDetails) :
    List FlowLogRecord :=
  let level :=
    if state = StateTag.FAILURE ∨ state = StateTag.REVERTED then
      Level.WARNING
    else Level.DEBUG
  [{ level := level
     flow_name := details.flow_name
     flow_uuid := details.flow_uuid
     state := state
     old_state := old_state_text details.old_state }]

/-- Embedding of `DynamicLogListener._task_receiver`.
`debug_enabled` is the logger's `isEnabledFor(DEBUG)` answer for this
event; `finish` is membership in `base_listener.FINISH_STATES` (a taskflow
collaborator constant, kept as a parameter). -/
def task_receiver (debug_enabled : Bool) (finish : StateTag → Bool)
    (state : StateTag) (details : TaskDetails) : List TaskLogRecord :=
  match details.result, finish state with
  | some result, true =>
      match result with
      | TFResult.FailureTrace trace =>
          [{ level := Level.WARNING
             task_name := details.task_name
             task_uuid := details.task_uuid
             state := state
             result_in_message := none
             exc_info := some trace }]
      | TFResult.PlainValue value =>
          let level :=
            if state = StateTag.FAILURE then Level.WARNING else Level.DEBUG
          if debug_enabled || state = StateTag.FAILURE then
            [{ level := level
               task_name := details.task_name
               task_uuid := details.task_uuid
               state := state
               result_in_message := some value
               exc_info := none }]
          else
            [{ level := level
               task_name := details.task_name
               task_uuid := details.task_uuid
               state := state
               result_in_message := none
               exc_info := none }]
  | _, _ =>
      let level :=
        if state = StateTag.REVERTING ∨ state = StateTag.RETRYING then
          Level.WARNING
        else Level.DEBUG
      [{ level := level
         task_name := details.task_name
         task_uuid := details.task_uuid
         state := state
         result_in_message := none
         exc_info := none }]

/-- Python exceptions observed at the helper boundary:
`exception.CinderException` (the domain error category caught by the
helpers), `KeyError` from a missing-key dict lookup, or any other
exception class. -/
inductive PyExc
  | CinderException (msg : String)
  | KeyError (key : String)
  | OtherException (msg : String)
  deriving DecidableEq, Repr

/-- An update record sent to `db.volume_update`: a Python dict of string
fields, modelled as an association list. -/
abbrev UpdateRecord := List (String × String)

/-- One call performed against the database collaborator
(`db.volume_update(context, volume_id, update)`). -/
structure UpdateCall where
  context : String
  volume_id : String
  update : UpdateRecord
  deriving DecidableEq, Repr

/-- The database collaborator: its behaviour on a `volume_update` call,
either returning normally or raising. -/
def Store := String → String → UpdateRecord → Except PyExc Unit

/-- One log emission from the module-level `LOG` inside the recovery
helpers: its severity, the cleaned reason text when the message
interpolates one, and whether exception info is attached
(`LOG.exception`, which logs at ERROR severity with `exc_info`). -/
structure HelperLog where
  level : Level
  reason_text : Option (List Char)
  has_exc_info : Bool
  deriving DecidableEq, Repr

deriving instance DecidableEq for Except

/-- The observable outcome of a recovery helper: the `volume_update`
calls it performed, the log records it emitted, and whether it returned
normally or let an exception propagate. -/
structure HelperOutcome where
  calls : List UpdateCall
  logs : List HelperLog
  result : Except PyExc Unit
  deriving DecidableEq, Repr

/-- The `volume_spec` dict, as a Python dict of string fields. -/
abbrev VolumeSpec := List (String × String)

/-- `spec[key]` lookup on the dict model. -/
def VolumeSpec.get (spec : VolumeSpec) (key : String) : Option String :=
  List.lookup key spec

/-- Embedding of `error_out_volume`: build `update = {'status': 'error'}`,
clean the reason (the commented-out persistence of the reason is absent:
the reason reaches only the debug log line), emit the debug line, call
`db.volume_update`, and catch exactly `exception.CinderException`, logging
it via `LOG.exception` and returning normally; any other exception
propagates. -/
def error_out_volume (db : Store) (context : String) (volume_id : String)
    (reason : Option (List Char)) : HelperOutcome :=
  let update : UpdateRecord := [("status", "error")]
  let reason := clean_reason reason
  let debug_log : HelperLog :=
    { level := Level.DEBUG, reason_text := some reason, has_exc_info := false }
  let call : UpdateCall :=
    { context := context, volume_id := volume_id, update := update }
  match db context volume_id update with
  | Except.ok _ =>
      { calls := [call], logs := [debug_log], result := Except.ok () }
  | Except.error (PyExc.CinderException m) =>
      { calls := [call]
        logs := [debug_log,
                 { level := Level.ERROR, reason_text := none,
                   has_exc_info := true }]
        result := Except.ok () }
  | Except.error e =>
      { calls := [call], logs := [debug_log], result := Except.error e }

/-- Embedding of `restore_source_status`: return immediately unless the
spec is truthy with `type == 'source_vol'`; extract
`spec['source_volid']` and `spec['source_volstatus']` (a missing key
raises `KeyError` before the guarded region); then, inside the `try`,
emit the debug line and call `db.volume_update`, catching exactly
`exception.CinderException` via `LOG.exception`. -/
def restore_source_status (db : Store) (context : String)
    (volume_spec : Option VolumeSpec) : HelperOutcome :=
  match volume_spec with
  | none => { calls := [], logs := [], result := Except.ok () }
  | some spec =>
      if spec.get "type" ≠ some "source_vol" then
        { calls := [], logs := [], result := Except.ok () }
      else
        match spec.get "source_volid" with
        | none =>
            { calls := [], logs := [],
              result := Except.error (PyExc.KeyError "source_volid") }
        | some source_volid =>
            match spec.get "source_volstatus" with
            | none =>
                { calls := [], logs := [],
                  result := Except.error (PyExc.KeyError "source_volstatus") }
            | some source_status =>
                let update : UpdateRecord := [("status", source_status)]
                let debug_log : HelperLog :=
                  { level := Level.DEBUG, reason_text := none,
                    has_exc_info := false }
                let call : UpdateCall :=
                  { context := context, volume_id := source_volid,
                    update := update }
                match db context source_volid update with
                | Except.ok _ =>
                    { calls := [call], logs := [debug_log],
                      result := Except.ok () }
                | Except.error (PyExc.CinderException m) =>
                    { calls := [call]
                      logs := [debug_log,
                               { level := Level.ERROR, reason_text := none,
                                 has_exc_info := true }]
                      result := Except.ok () }
                | Except.error e =>
                    { calls := [call], logs := [debug_log],
                      result := Except.error e }

/-! Sanity checks of the embedding on concrete inputs. -/

example : clean_reason none = "???".toList := by decide

example : clean_reason (some "short".toList) = "short".toList := by decide

example :
    make_pretty_name { name := "bar", self := some (some "Foo") } =
      "Foo.bar" := by decide

example :
    make_pretty_name { name := "baz", self := none } = "baz" := by decide

/-! Theorems settling the claims. -/

/-- C5: `clean_reason` maps an absent reason to `"???"`; a text reason of
length at most 128 is returned unchanged; a text reason of length greater
than 128 yields the first 128 characters followed by `"..."`, a text of
exactly 131 characters ending in `"..."`.  It is a total Lean function,
hence total and side-effect-free. -/
theorem clean_reason_spec :
    clean_reason none = "???".toList ∧
    ∀ r : List Char,
      (r.length ≤ 128 → clean_reason (some r) = r) ∧
      (r.length > 128 →
        clean_reason (some r) = r.take 128 ++ "...".toList ∧
        (clean_reason (some r)).length = 131 ∧
        (clean_reason (some r)).drop 128 = "...".toList) := by
  refine ⟨rfl, fun r => ⟨fun h => ?_, fun h => ?_⟩⟩
  · simp [clean_reason, REASON_LENGTH, h]
  · have h' : ¬ r.length ≤ 128 := by omega
    have heq : clean_reason (some r) = r.take 128 ++ "...".toList := by
      simp [clean_reason, REASON_LENGTH, h']
    refine ⟨heq, ?_, ?_⟩
    · rw [heq, List.length_append, List.length_take]
      simp; omega
    · rw [heq]
      have hl : (r.take 128).length = 128 := by
        rw [List.length_take]; omega
      have hd := List.drop_left (r.take 128) ("...".toList)
      rw [hl] at hd
      exact hd

/-- Closed witness for C5: `clean_reason` applied to a 200-character
reason produces the truncated 131-character text. -/
theorem clean_reason_spec_witness :
    (List.replicate 200 'a').length > 128 ∧
    (clean_reason (some (List.replicate 200 'a'))).length = 131 :=
  ⟨by simp only [List.length_replicate]; omega,
   ((clean_reason_spec.2 (List.replicate 200 'a')).2
     (by simp only [List.length_replicate]; omega)).2.1⟩

/-- C9: `make_pretty_name` is a total function (never raises): for a
callable bound to an owner whose type name resolves to `Foo` and named
`bar` it returns `"Foo.bar"`; for a free callable named `baz` it returns
`"baz"`; when the owner's type-name resolution fails (the caught
`AttributeError`), it falls back to the callable's name alone. -/
theorem make_pretty_name_spec :
    (∀ foo bar : String,
      make_pretty_name { name := bar, self := some (some foo) } =
        foo ++ "." ++ bar) ∧
    (∀ baz : String, make_pretty_name { name := baz, self := none } = baz) ∧
    (∀ baz : String,
      make_pretty_name { name := baz, self := some none } = baz) :=
  ⟨fun _ _ => rfl, fun _ => rfl, fun _ => rfl⟩

/-- C1: for a task event with a `PlainValue` result and a state in the
finish subset, exactly one record is emitted; its severity is WARNING iff
the new state is FAILURE (DEBUG otherwise); the serialized result value
appears in the message iff the logger reports DEBUG enabled or the new
state is FAILURE, and otherwise the message carries only the task
name/uuid/state. -/
theorem task_receiver_plain_value_spec
    (debug_enabled : Bool) (finish : StateTag → Bool)
    (state : StateTag) (details : TaskDetails) (value : String)
    (hres : details.result = some (TFResult.PlainValue value))
    (hfin : finish state = true) :
    task_receiver debug_enabled finish state details =
      [{ level :=
           if state = StateTag.FAILURE then Level.WARNING else Level.DEBUG
         task_name := details.task_name
         task_uuid := details.task_uuid
         state := state
         result_in_message :=
           if debug_enabled || state = StateTag.FAILURE then some value
           else none
         exc_info := none }] := by
  unfold task_receiver
  rw [hres, hfin]
  by_cases h : (debug_enabled || state = StateTag.FAILURE) = true <;>
    simp [h]

/-- Closed witness for C1: a SUCCESS finish with a plain result and a
debug-disabled logger is logged at DEBUG with the result omitted. -/
theorem task_receiver_plain_value_spec_witness :
    task_receiver false (fun _ => true) StateTag.SUCCESS
        { task_name := "t", task_uuid := "u",
          result := some (TFResult.PlainValue "42") } =
      [{ level := Level.DEBUG, task_name := "t", task_uuid := "u",
         state := StateTag.SUCCESS, result_in_message := none,
         exc_info := none }] := by
  have h := task_receiver_plain_value_spec false (fun _ => true)
    StateTag.SUCCESS
    { task_name := "t", task_uuid := "u",
      result := some (TFResult.PlainValue "42") } "42" rfl rfl
  simpa using h

/-- C2: for a task event with a `FailureTrace` result and a state in the
finish subset, exactly one record is emitted, at WARNING, carrying the
task name/uuid/state with the traceback attached as structured `exc_info`
(not inlined in the message), independently of the debug-enabled flag. -/
theorem task_receiver_failure_trace_spec
    (debug_enabled : Bool) (finish : StateTag → Bool)
    (state : StateTag) (details : TaskDetails) (trace : List String)
    (hres : details.result = some (TFResult.FailureTrace trace))
    (hfin : finish state = true) :
    task_receiver debug_enabled finish state details =
      [{ level := Level.WARNING
         task_name := details.task_name
         task_uuid := details.task_uuid
         state := state
         result_in_message := none
         exc_info := some trace }] := by
  unfold task_receiver
  rw [hres, hfin]

/-- Closed witness for C2: a FAILURE with a failure result is logged once
at WARNING with the trace attached, even with debug enabled. -/
theorem task_receiver_failure_trace_spec_witness :
    task_receiver true (fun _ => true) StateTag.FAILURE
        { task_name := "t", task_uuid := "u",
          result := some (TFResult.FailureTrace ["tb"]) } =
      [{ level := Level.WARNING, task_name := "t", task_uuid := "u",
         state := StateTag.FAILURE, result_in_message := none,
         exc_info := some ["tb"] }] :=
  task_receiver_failure_trace_spec true (fun _ => true) StateTag.FAILURE
    { task_name := "t", task_uuid := "u",
      result := some (TFResult.FailureTrace ["tb"]) } ["tb"] rfl rfl

/-- C3: for a task event with no result, or whose state is outside the
finish subset, one record is emitted at WARNING iff the new state is
REVERTING or RETRYING (DEBUG otherwise), carrying only the task
name/uuid/state — never a result value and never trace context. -/
theorem task_receiver_other_spec
    (debug_enabled : Bool) (finish : StateTag → Bool)
    (state : StateTag) (details : TaskDetails)
    (h : details.result = none ∨ finish state = false) :
    task_receiver debug_enabled finish state details =
      [{ level :=
           if state = StateTag.REVERTING ∨ state = StateTag.RETRYING then
             Level.WARNING
           else Level.DEBUG
         task_name := details.task_name
         task_uuid := details.task_uuid
         state := state
         result_in_message := none
         exc_info := none }] := by
  unfold task_receiver
  rcases h with h | h
  · rw [h]
  · rw [h]
    rcases hr : details.result with _ | r
    · rfl
    · rcases r <;> rfl

/-- Closed witness for C3: a RUNNING transition with no result is logged
at DEBUG with only the task name/uuid/state. -/
theorem task_receiver_other_spec_witness :
    task_receiver true (fun _ => true) StateTag.RUNNING
        { task_name := "t", task_uuid := "u", result := none } =
      [{ level := Level.DEBUG, task_name := "t", task_uuid := "u",
         state := StateTag.RUNNING, result_in_message := none,
         exc_info := none }] := by
  have h := task_receiver_other_spec true (fun _ => true) StateTag.RUNNING
    { task_name := "t", task_uuid := "u", result := none } (Or.inl rfl)
  simpa using h

/-- C4: a flow event always yields exactly one record, at WARNING iff the
new state is FAILURE or REVERTED (DEBUG otherwise) regardless of the old
state, whose message carries the flow name, flow uuid, new state and old
state, the absent old state rendered by the explicit `"None"` marker. -/
theorem flow_receiver_spec (state : StateTag) (details : FlowDetails) :
    flow_receiver state details =
      [{ level :=
           if state = StateTag.FAILURE ∨ state = StateTag.REVERTED then
             Level.WARNING
           else Level.DEBUG
         flow_name := details.flow_name
         flow_uuid := details.flow_uuid
         state := state
         old_state := old_state_text details.old_state }] ∧
    old_state_text none = "None" :=
  ⟨rfl, rfl⟩

/-- A store whose `volume_update` always succeeds. -/
def ok_store : Store := fun _ _ _ => Except.ok ()

/-- A store whose `volume_update` always raises the domain error. -/
def cinder_exc_store : Store :=
  fun _ _ _ => Except.error (PyExc.CinderException "boom")

/-- A store whose `volume_update` always raises a non-domain error. -/
def other_exc_store : Store :=
  fun _ _ _ => Except.error (PyExc.OtherException "oops")

/-- A well-formed source-volume spec used by witnesses. -/
def source_vol_spec : VolumeSpec :=
  [("type", "source_vol"), ("source_volid", "sv-1"),
   ("source_volstatus", "available")]

/-- C6: for every store behaviour, context, volume id and reason,
`error_out_volume` performs exactly one `volume_update` call, whose
update record is exactly `{'status': 'error'}`; every emitted log record
carrying the cleaned reason is the debug line, so the reason never
reaches the persisted update record. -/
theorem error_out_volume_update_spec
    (db : Store) (context volume_id : String)
    (reason : Option (List Char)) :
    (error_out_volume db context volume_id reason).calls =
      [{ context := context, volume_id := volume_id,
         update := [("status", "error")] }] ∧
    ∀ log ∈ (error_out_volume db context volume_id reason).logs,
      log.reason_text ≠ none → log.level = Level.DEBUG := by
  unfold error_out_volume
  dsimp only
  rcases hdb : db context volume_id [("status", "error")] with e | _
  · rcases e with m | k | m
    · refine ⟨rfl, fun log hmem hrt => ?_⟩
      have hlog : log =
          ({ level := Level.DEBUG, reason_text := some (clean_reason reason),
             has_exc_info := false } : HelperLog) ∨ log =
          ({ level := Level.ERROR, reason_text := none,
             has_exc_info := true } : HelperLog) := by
        simpa using hmem
      rcases hlog with hlog | hlog
      · rw [hlog]
      · rw [hlog] at hrt
        simp at hrt
    · refine ⟨rfl, fun log hmem _ => ?_⟩
      have hlog : log =
          ({ level := Level.DEBUG, reason_text := some (clean_reason reason),
             has_exc_info := false } : HelperLog) := by
        simpa using hmem
      rw [hlog]
    · refine ⟨rfl, fun log hmem _ => ?_⟩
      have hlog : log =
          ({ level := Level.DEBUG, reason_text := some (clean_reason reason),
             has_exc_info := false } : HelperLog) := by
        simpa using hmem
      rw [hlog]
  · refine ⟨rfl, fun log hmem _ => ?_⟩
    have hlog : log =
        ({ level := Level.DEBUG, reason_text := some (clean_reason reason),
           has_exc_info := false } : HelperLog) := by
      simpa using hmem
    rw [hlog]

/-- Closed witness for C6: with an always-succeeding store and an absent
reason, exactly one update call `{'status': 'error'}` is made, and the
debug line is the log record carrying the cleaned reason. -/
theorem error_out_volume_update_spec_witness :
    (error_out_volume ok_store "ctx" "vol-1" none).calls =
      [{ context := "ctx", volume_id := "vol-1",
         update := [("status", "error")] }] ∧
    ({ level := Level.DEBUG, reason_text := some "???".toList,
       has_exc_info := false } : HelperLog).level = Level.DEBUG :=
  ⟨(error_out_volume_update_spec ok_store "ctx" "vol-1" none).1,
   (error_out_volume_update_spec ok_store "ctx" "vol-1" none).2
     { level := Level.DEBUG, reason_text := some "???".toList,
       has_exc_info := false }
     (by decide) (by decide)⟩

/-- C8: `restore_source_status` is a no-op when the spec is absent or its
`type` field differs from `"source_vol"`; when the spec has
`type = "source_vol"` and both source keys, it calls `volume_update`
exactly once, with the source volume id and `{'status': sourceStatus}`,
whatever the store does. -/
theorem restore_source_status_spec (db : Store) (context : String) :
    restore_source_status db context none =
      { calls := [], logs := [], result := Except.ok () } ∧
    (∀ spec : VolumeSpec, spec.get "type" ≠ some "source_vol" →
      restore_source_status db context (some spec) =
        { calls := [], logs := [], result := Except.ok () }) ∧
    (∀ (spec : VolumeSpec) (svid sstat : String),
      spec.get "type" = some "source_vol" →
      spec.get "source_volid" = some svid →
      spec.get "source_volstatus" = some sstat →
      (restore_source_status db context (some spec)).calls =
        [{ context := context, volume_id := svid,
           update := [("status", sstat)] }]) := by
  refine ⟨rfl, fun spec hne => ?_, fun spec svid sstat htype hvid hstat => ?_⟩
  · unfold restore_source_status
    dsimp only
    rw [if_pos hne]
  · unfold restore_source_status
    dsimp only
    rw [if_neg (by simp [htype]), hvid, hstat]
    dsimp only
    rcases hdb : db context svid [("status", sstat)] with e | _
    · rcases e with m | k | m <;> rfl
    · rfl

/-- Closed witness for C8: a spec with a foreign `type` makes no store
call, while the well-formed source-volume spec yields exactly one call
restoring the saved status. -/
theorem restore_source_status_spec_witness :
    restore_source_status ok_store "ctx" (some [("type", "raw")]) =
      { calls := [], logs := [], result := Except.ok () } ∧
    (restore_source_status ok_store "ctx" (some source_vol_spec)).calls =
      [{ context := "ctx", volume_id := "sv-1",
         update := [("status", "available")] }] :=
  ⟨(restore_source_status_spec ok_store "ctx").2.1 [("type", "raw")]
     (by decide),
   (restore_source_status_spec ok_store "ctx").2.2 source_vol_spec
     "sv-1" "available" (by decide) (by decide) (by decide)⟩

/-- C10: when the spec has `type = "source_vol"` but lacks
`source_volid` or `source_volstatus`, the key extraction happens before
the guarded region, so `restore_source_status` raises a `KeyError` that
propagates to the caller and `volume_update` is never called. -/
theorem restore_source_status_missing_key_spec
    (db : Store) (context : String) (spec : VolumeSpec)
    (htype : spec.get "type" = some "source_vol")
    (h : spec.get "source_volid" = none ∨
         spec.get "source_volstatus" = none) :
    (restore_source_status db context (some spec)).calls = [] ∧
    ∃ k, (restore_source_status db context (some spec)).result =
      Except.error (PyExc.KeyError k) := by
  unfold restore_source_status
  dsimp only
  rw [if_neg (by simp [htype])]
  rcases hvid : spec.get "source_volid" with _ | svid
  · exact ⟨rfl, "source_volid", rfl⟩
  · rcases h with h | h
    · rw [hvid] at h
      exact absurd h (by simp)
    · rw [h]
      exact ⟨rfl, "source_volstatus", rfl⟩

/-- Closed witness for C10: a source-volume spec missing its
`source_volid` raises a propagating `KeyError` with no store call. -/
theorem restore_source_status_missing_key_spec_witness :
    (restore_source_status ok_store "ctx"
        (some [("type", "source_vol")])).calls = [] ∧
    ∃ k, (restore_source_status ok_store "ctx"
        (some [("type", "source_vol")])).result =
      Except.error (PyExc.KeyError k) :=
  restore_source_status_missing_key_spec ok_store "ctx"
    [("type", "source_vol")] (by decide) (Or.inl (by decide))

/-- C7 counterexample: `error_out_volume` over a store that raises the
domain error does return normally, but the record it logs for the caught
error is emitted by `LOG.exception`, i.e. at ERROR severity — no emitted
record has WARNING severity, refuting "logs a warning". -/
theorem status_recovery_warning_counterexample :
    (error_out_volume cinder_exc_store "ctx" "vol-1" none).result =
      Except.ok () ∧
    (error_out_volume cinder_exc_store "ctx" "vol-1" none).logs =
      [{ level := Level.DEBUG, reason_text := some "???".toList,
         has_exc_info := false },
       { level := Level.ERROR, reason_text := none, has_exc_info := true }] ∧
    ¬ ∃ log ∈ (error_out_volume cinder_exc_store "ctx" "vol-1" none).logs,
        log.level = Level.WARNING := by
  refine ⟨rfl, rfl, ?_⟩
  decide

/-- C7 (amended): for both recovery operations, a domain-level store
error (`CinderException`) is caught: the operation returns normally,
makes no second store attempt, and logs the failure at ERROR severity
with exception info attached (`LOG.exception`); any other exception
class raised by the store propagates unmodified to the caller. -/
theorem status_recovery_error_discipline
    (db : Store) (context volume_id : String) (reason : Option (List Char))
    (spec : VolumeSpec) (svid sstat : String)
    (htype : spec.get "type" = some "source_vol")
    (hvid : spec.get "source_volid" = some svid)
    (hstat : spec.get "source_volstatus" = some sstat) :
    ((∀ m, db context volume_id [("status", "error")] =
        Except.error (PyExc.CinderException m) →
      error_out_volume db context volume_id reason =
        { calls := [{ context := context, volume_id := volume_id,
                      update := [("status", "error")] }]
          logs := [{ level := Level.DEBUG,
                     reason_text := some (clean_reason reason),
                     has_exc_info := false },
                   { level := Level.ERROR, reason_text := none,
                     has_exc_info := true }]
          result := Except.ok () }) ∧
     (∀ e, db context volume_id [("status", "error")] = Except.error e →
       (∀ m, e ≠ PyExc.CinderException m) →
       (error_out_volume db context volume_id reason).result =
         Except.error e ∧
       (error_out_volume db context volume_id reason).calls.length = 1)) ∧
    ((∀ m, db context svid [("status", sstat)] =
        Except.error (PyExc.CinderException m) →
      restore_source_status db context (some spec) =
        { calls := [{ context := context, volume_id := svid,
                      update := [("status", sstat)] }]
          logs := [{ level := Level.DEBUG, reason_text := none,
                     has_exc_info := false },
                   { level := Level.ERROR, reason_text := none,
                     has_exc_info := true }]
          result := Except.ok () }) ∧
     (∀ e, db context svid [("status", sstat)] = Except.error e →
       (∀ m, e ≠ PyExc.CinderException m) →
       (restore_source_status db context (some spec)).result =
         Except.error e ∧
       (restore_source_status db context (some spec)).calls.length = 1)) := by
  constructor
  · constructor
    · intro m hdb
      unfold error_out_volume
      dsimp only
      rw [hdb]
    · intro e hdb hne
      unfold error_out_volume
      dsimp only
      rw [hdb]
      rcases e with m | k | m
      · exact absurd rfl (hne m)
      · exact ⟨rfl, rfl⟩
      · exact ⟨rfl, rfl⟩
  · constructor
    · intro m hdb
      unfold restore_source_status
      dsimp only
      rw [if_neg (by simp [htype]), hvid, hstat]
      dsimp only
      rw [hdb]
    · intro e hdb hne
      unfold restore_source_status
      dsimp only
      rw [if_neg (by simp [htype]), hvid, hstat]
      dsimp only
      rw [hdb]
      rcases e with m | k | m
      · exact absurd rfl (hne m)
      · exact ⟨rfl, rfl⟩
      · exact ⟨rfl, rfl⟩

/-- Closed witness for amended C7: a store raising a non-domain error
makes `error_out_volume` propagate it after its single attempt. -/
theorem status_recovery_error_discipline_witness :
    (error_out_volume other_exc_store "ctx" "vol-1" none).result =
      Except.error (PyExc.OtherException "oops") ∧
    (error_out_volume other_exc_store "ctx" "vol-1" none).calls.length =
      1 :=
  (status_recovery_error_discipline other_exc_store "ctx" "vol-1" none
      source_vol_spec "sv-1" "available"
      (by decide) (by decide) (by decide)).1.2
    (PyExc.OtherException "oops") rfl (fun m => by simp)

end CinderFlowsCommon
